import Mathlib

/-
  A verification development for the Tweets-Monitor repository.

  The engine under study is the `MonitorGUI` class in `tweet_monitor_gui.pyw`:
  a background poll loop with a dedup tracker, a one-shot range-counter
  worker, and a queue carrying events from background threads to the UI
  consumer (`_drain_queue` / `_apply_update`).

  Timestamps (`datetime` values in the source) are modelled as natural
  numbers (seconds); the only operations the engine performs on them are
  comparisons and truncation to the start of the calendar day, both of
  which this ordering supports.
-/

namespace TweetMonitor

/-- A post, mirroring the `Tweet` record as used by the GUI
(fields `id`, `created_at`, `kind`, `text`, `retweet_count`,
`like_count`, `reply_count`). -/
structure Tweet where
  id : Nat
  created_at : Nat
  kind : String
  text : String
  retweet_count : Nat
  like_count : Nat
  reply_count : Nat
deriving DecidableEq

/-- Account information as consumed by `_apply_update`
(`tweets`, `followers`, `following`). -/
structure AccountInfo where
  tweets : Nat
  followers : Nat
  following : Nat
deriving DecidableEq

/-- The payload of an update event, mirroring the dict built in
`_poll_loop` lines 221..229. -/
structure UpdatePayload where
  now : Nat
  tweets : List Tweet
  new : List Tweet
  today : Nat
  period : Nat
  info : Option AccountInfo
deriving DecidableEq

/-- An event placed on the queue `self._q`: the three message types
handled by `_drain_queue`. -/
inductive Event where
  | update (p : UpdatePayload)
  | error (msg : String)
  | range (count : Nat)
deriving DecidableEq

/-- The dedup step of `_poll_loop` lines 212..216: iterate over `tweets`
in order, membership-test each id against the set `self._tweet_ids`,
insert the id if absent, and collect (in order) the posts whose id was
absent. The Python set is modelled as a list of ids with membership
semantics. Returns (new subset, updated id set). -/
def observe : List Tweet → List Nat → List Tweet × List Nat
  | [], ids => ([], ids)
  | t :: ts, ids =>
    if t.id ∈ ids then observe ts ids
    else
      let r := observe ts (t.id :: ids)
      (t :: r.1, r.2)

/-- The sequence of `new` subsets produced by successive polls of one
session: each poll runs the dedup step of `_poll_loop` lines 212..216
against the id set left by the previous poll. -/
def pollNews : List (List Tweet) → List Nat → List (List Tweet)
  | [], _ => []
  | p :: ps, ids => (observe p ids).1 :: pollNews ps (observe p ids).2

theorem observe_ids_subset (ts : List Tweet) (ids : List Nat) :
    ids ⊆ (observe ts ids).2 := by
  induction ts generalizing ids with
  | nil => simp [observe]
  | cons t ts ih =>
    intro x hx
    by_cases h : t.id ∈ ids
    · simpa [observe, h] using ih ids hx
    · have hx' : x ∈ t.id :: ids := List.mem_cons_of_mem _ hx
      simpa [observe, h] using ih (t.id :: ids) hx'

theorem observe_new_not_mem (ts : List Tweet) (ids : List Nat) :
    ∀ t ∈ (observe ts ids).1, t.id ∉ ids := by
  induction ts generalizing ids with
  | nil => simp [observe]
  | cons t ts ih =>
    intro u hu
    by_cases h : t.id ∈ ids
    · exact ih ids u (by simpa [observe, h] using hu)
    · rw [observe] at hu
      simp only [h, if_false] at hu
      rcases List.mem_cons.mp hu with rfl | hu'
      · exact h
      · have := ih (t.id :: ids) u hu'
        exact fun hmem => this (List.mem_cons_of_mem _ hmem)

theorem observe_new_mem_ids (ts : List Tweet) (ids : List Nat) :
    ∀ t ∈ (observe ts ids).1, t.id ∈ (observe ts ids).2 := by
  induction ts generalizing ids with
  | nil => simp [observe]
  | cons t ts ih =>
    intro u hu
    by_cases h : t.id ∈ ids
    · simp only [observe, h, if_true] at hu ⊢
      exact ih ids u hu
    · rw [observe] at hu ⊢
      simp only [h, if_false] at hu ⊢
      rcases List.mem_cons.mp hu with rfl | hu'
      · exact observe_ids_subset ts (u.id :: ids) (List.mem_cons_self _ _)
      · exact ih (t.id :: ids) u hu'

theorem observe_new_sublist (ts : List Tweet) (ids : List Nat) :
    List.Sublist (observe ts ids).1 ts := by
  induction ts generalizing ids with
  | nil => simp [observe]
  | cons t ts ih =>
    by_cases h : t.id ∈ ids
    · simp only [observe, h, if_true]
      exact List.Sublist.cons _ (ih ids)
    · simp only [observe, h, if_false]
      exact List.Sublist.cons₂ _ (ih (t.id :: ids))

theorem pollNews_not_mem (ps : List (List Tweet)) (ids : List Nat) :
    ∀ ns ∈ pollNews ps ids, ∀ t ∈ ns, t.id ∉ ids := by
  induction ps generalizing ids with
  | nil => simp [pollNews]
  | cons p ps ih =>
    intro ns hns t ht
    rw [pollNews] at hns
    rcases List.mem_cons.mp hns with rfl | hns'
    · exact observe_new_not_mem p ids t ht
    · intro hmem
      exact ih (observe p ids).2 ns hns' t ht (observe_ids_subset p ids hmem)

theorem pollNews_pairwise (ps : List (List Tweet)) (ids : List Nat) :
    (pollNews ps ids).Pairwise
      (fun n1 n2 => ∀ t ∈ n1, ∀ u ∈ n2, t.id ≠ u.id) := by
  induction ps generalizing ids with
  | nil => simp [pollNews]
  | cons p ps ih =>
    rw [pollNews]
    refine List.Pairwise.cons ?_ (ih (observe p ids).2)
    intro ns hns t ht u hu heq
    have h1 : t.id ∈ (observe p ids).2 := observe_new_mem_ids p ids t ht
    have h2 : u.id ∉ (observe p ids).2 :=
      pollNews_not_mem ps (observe p ids).2 ns hns u hu
    exact h2 (heq ▸ h1)

/-- The account-info refresh policy of `_poll_loop` line 205:
`(cycle % max(1, int(300 / max(1, interval)))) == 0 or cycle == 1`. -/
def infoDue (cycle interval : Nat) : Bool :=
  cycle % max 1 (300 / max 1 interval) == 0 || cycle == 1

/-- The start of the current calendar day, modelling
`now.replace(hour=0, minute=0, second=0, microsecond=0)` on
seconds-since-midnight-aligned natural-number timestamps
(`_poll_loop` line 209). -/
def startOfDay (now : Nat) : Nat :=
  86400 * (now / 86400)

/-- The environment of one iteration of `_poll_loop`: the outcome of
`get_recent_tweets`, the outcome `get_user_info` would have if called
this tick, and the wall clock read at line 208. -/
structure TickInput where
  fetch : Except String (List Tweet)
  infoResult : Except String AccountInfo
  now : Nat

/-- The mutable state read and written by `_poll_loop`: the cycle
counter (local variable `cycle`), the dedup id set `self._tweet_ids`,
and the session window `self.monitoring_start`. -/
structure LoopState where
  cycle : Nat
  ids : List Nat
  monitoringStart : Option Nat
deriving DecidableEq

/-- One iteration of the `while` body of `_poll_loop` lines 200..232:
increment the cycle counter, fetch recent tweets, optionally refresh
account info, classify new tweets through the dedup set, compute the
today and session counters, and enqueue one update event; any failure
inside the `try` block instead enqueues one error event and leaves the
dedup set and session window untouched. -/
def pollTick (interval : Nat) (st : LoopState) (inp : TickInput) :
    LoopState × List Event :=
  let cycle := st.cycle + 1
  match inp.fetch with
  | .error e => ({ st with cycle := cycle }, [Event.error e])
  | .ok tweets =>
    let infoRes : Except String (Option AccountInfo) :=
      if infoDue cycle interval then Except.map some inp.infoResult
      else .ok none
    match infoRes with
    | .error e => ({ st with cycle := cycle }, [Event.error e])
    | .ok info =>
      let todayStart := startOfDay inp.now
      let mstart := st.monitoringStart.getD inp.now
      let r := observe tweets st.ids
      let todayCount := tweets.countP (fun t => decide (todayStart ≤ t.created_at))
      let periodCount := tweets.countP (fun t => decide (mstart ≤ t.created_at))
      ({ st with cycle := cycle, ids := r.2 },
        [Event.update
          { now := inp.now, tweets := tweets, new := r.1,
            today := todayCount, period := periodCount, info := info }])

/-- The `while self.running` loop of `_poll_loop` lines 200..237 run
over a schedule of tick environments. The boolean paired with each
environment records whether `stop` set `self.running` to false while
that iteration was executing: the iteration still runs to completion
and enqueues its event, and the loop then exits at the boundary (the
interruptible sleep at lines 234..237 and the loop guard at line 200). -/
def pollLoopRun (interval : Nat) :
    LoopState → List (TickInput × Bool) → LoopState × List Event
  | st, [] => (st, [])
  | st, (inp, stopFlag) :: rest =>
    let r := pollTick interval st inp
    if stopFlag then r
    else
      let r2 := pollLoopRun interval r.1 rest
      (r2.1, r.2 ++ r2.2)

/-- The engine-visible state of `MonitorGUI`: whether `self.api` has
been constructed, `self.user_id`, the `self.running` flag, the session
window, the last range count, the dedup id set, and whether a poll
thread and a range thread are alive. -/
structure EngineState where
  apiConstructed : Bool
  userId : Option String
  running : Bool
  monitoringStart : Option Nat
  rangeCount : Option Nat
  tweetIds : List Nat
  pollAlive : Bool
  rangeAlive : Bool
deriving DecidableEq

/-- The outcome of the handle-resolution block of `start`
(lines 166..171): `TwitterAPI()` raises, `get_user_info` raises,
the info carries no id (the `raise RuntimeError` branch), or an id is
resolved. -/
inductive ResolveOutcome where
  | constructRaises (msg : String)
  | infoRaises (msg : String)
  | noId
  | resolved (uid : String)
deriving DecidableEq

/-- Whether a resolution outcome is a failure (any branch that reaches
the `except` handler of `start`). -/
def ResolveOutcome.isFailure : ResolveOutcome → Bool
  | .resolved _ => false
  | _ => true

/-- The visible result of a call to `start`: returned as a silent no-op,
returned with an error dialog, or transitioned to running with a poll
thread spawned. -/
inductive StartResult where
  | noop
  | errorShown (msg : String)
  | started
deriving DecidableEq

/-- `MonitorGUI.start` (lines 152..187). Inputs: the engine state, the
stripped username, the parsed interval (`none` when `int(...)` raises
`ValueError`), the resolution outcome, and the wall clock read at
line 172. Mirrors the source order: the `self.running` guard, the
username guard, interval validation, then the `try` block whose
`self.api = TwitterAPI()` and `self.user_id = ...` assignments persist
even when a later line raises; on success the session state is reset
and the poll thread is spawned. -/
def start (s : EngineState) (username : String) (intervalParse : Option Int)
    (r : ResolveOutcome) (now : Nat) : EngineState × StartResult :=
  if s.running then (s, .noop)
  else if username = "" then (s, .errorShown "Missing username")
  else
    match intervalParse with
    | none => (s, .errorShown "Invalid interval")
    | some _ =>
      match r with
      | .constructRaises msg => (s, .errorShown msg)
      | .infoRaises msg => ({ s with apiConstructed := true }, .errorShown msg)
      | .noId =>
        ({ s with apiConstructed := true, userId := none },
          .errorShown "Could not fetch user info.")
      | .resolved uid =>
        ({ s with
            apiConstructed := true
            userId := some uid
            monitoringStart := some now
            rangeCount := none
            tweetIds := []
            running := true
            pollAlive := true },
          .started)

/-- `MonitorGUI.stop` (lines 189..195): a no-op when not running,
otherwise clears `self.running` (the poll thread itself exits later, at
its next boundary check). The boolean records whether the call did
anything (logged the stop). -/
def stop (s : EngineState) : EngineState × Bool :=
  if s.running then ({ s with running := false }, true)
  else (s, false)

/-- The visible result of a call to `count_range`: refused because the
engine never started, rejected for unparsable input, rejected for an
inverted range, silently ignored because a range thread is alive, or a
worker thread spawned. -/
inductive RangeReqResult where
  | notReady
  | parseError
  | invalidRange
  | busy
  | spawned
deriving DecidableEq

/-- `MonitorGUI.count_range` (lines 239..269). Inputs: the engine state
and the two `parse_dt` results for the range fields. Mirrors the source
order: the `not self.api or not self.user_id` guard, the parse guard,
the `start >= end` guard, then the `is_alive` guard before the worker
thread is spawned. Only the spawning branch touches engine state. -/
def count_range (s : EngineState) (startP endP : Option Nat) :
    EngineState × RangeReqResult :=
  if s.apiConstructed = false ∨ s.userId = none then (s, .notReady)
  else if startP = none ∨ endP = none then (s, .parseError)
  else if endP.getD 0 ≤ startP.getD 0 then (s, .invalidRange)
  else if s.rangeAlive then (s, .busy)
  else ({ s with rangeAlive := true }, .spawned)

/-- The events a single `count_range` request contributes to the queue:
the worker body (lines 259..264) runs only when a worker thread was
spawned; every other outcome enqueues nothing. -/
def requestEvents (res : RangeReqResult) (workerOut : List Event) : List Event :=
  match res with
  | .spawned => workerOut
  | _ => []

/-- The worker body of `count_range` (lines 259..264): enqueue a single
range event carrying the count on success, or a single error event when
`count_tweets_in_range` raises. -/
def rangeWorker (countResult : Except String Nat) : List Event :=
  match countResult with
  | .ok c => [Event.range c]
  | .error e => [Event.error e]

/-- Modelled from the spec: `TwitterAPI.count_tweets_in_range` is
defined in `tweet_monitor.py`, which is not among the provided source
files (only its caller, the `count_range` worker, is). Following
spec section 4.4: page backward through the history (pages newest
first), accumulate the number of posts whose `created_at` lies in the
closed interval from `a` to `b`, and terminate when the current page's
oldest post is older than `a` or when no further cursor exists (here:
the page list is exhausted). -/
def count_tweets_in_range (a b : Nat) : List (List Tweet) → Nat
  | [] => 0
  | page :: rest =>
    let c := page.countP (fun t => decide (a ≤ t.created_at ∧ t.created_at ≤ b))
    match page.getLast? with
    | some oldest =>
      if oldest.created_at < a then c
      else c + count_tweets_in_range a b rest
    | none => c + count_tweets_in_range a b rest

/-- The consumer-side state mutated by `_drain_queue` and
`_apply_update`: the statistics labels and the activity log. -/
structure UIState where
  today : Option Nat
  period : Option Nat
  lastUpdate : Option Nat
  rangeCount : Option Nat
  log : List String
deriving DecidableEq

/-- Handling of one queued message by `_drain_queue` lines 275..283:
update messages go through `_apply_update` (which sets the today,
session and last-update labels), range messages set the range count,
error messages are appended to the log. No branch consults
`self.running`. -/
def applyEvent (ui : UIState) : Event → UIState
  | .update p =>
    { ui with
        today := some p.today
        period := some p.period
        lastUpdate := some p.now }
  | .range c => { ui with rangeCount := some c }
  | .error e => { ui with log := ui.log ++ [e] }

/-- The drain step of `_drain_queue` lines 271..285: consume every
queued message in order, whatever the engine state. -/
def drainQueue (ui : UIState) (evs : List Event) : UIState :=
  evs.foldl applyEvent ui

/-- A sample tweet used to instantiate theorems at concrete inputs. -/
def sampleTweet (i c : Nat) : Tweet :=
  { id := i, created_at := c, kind := "tweet", text := "sample",
    retweet_count := 0, like_count := 0, reply_count := 0 }

theorem count_tweets_in_range_correct (a b : Nat) (pages : List (List Tweet))
    (hsorted : pages.flatten.Pairwise
      (fun t u => u.created_at < t.created_at)) :
    count_tweets_in_range a b pages
      = pages.flatten.countP
          (fun t => decide (a ≤ t.created_at ∧ t.created_at ≤ b)) := by
  induction pages with
  | nil => simp [count_tweets_in_range]
  | cons page rest ih =>
    rw [List.flatten_cons] at hsorted ⊢
    rw [List.countP_append]
    have hsplit := List.pairwise_append.mp hsorted
    by_cases hemp : page = []
    · subst hemp
      simpa [count_tweets_in_range] using ih hsplit.2.1
    · by_cases hold : (page.getLast hemp).created_at < a
      · have hzero : rest.flatten.countP
            (fun t => decide (a ≤ t.created_at ∧ t.created_at ≤ b)) = 0 := by
          rw [List.countP_eq_zero]
          intro u hu
          have hcross := hsplit.2.2 (page.getLast hemp)
            (List.getLast_mem hemp) u hu
          simp only [decide_eq_true_eq, not_and, not_le]
          intro hc
          omega
        have hstep : count_tweets_in_range a b (page :: rest)
            = page.countP
                (fun t => decide (a ≤ t.created_at ∧ t.created_at ≤ b)) := by
          rw [count_tweets_in_range, List.getLast?_eq_getLast page hemp]
          simp [hold]
        rw [hstep, hzero]
        simp
      · have hstep : count_tweets_in_range a b (page :: rest)
            = page.countP
                (fun t => decide (a ≤ t.created_at ∧ t.created_at ≤ b))
              + count_tweets_in_range a b rest := by
          rw [count_tweets_in_range, List.getLast?_eq_getLast page hemp]
          simp [hold]
        rw [hstep, ih hsplit.2.1]

/-- C1: for a paged history whose flattened, newest-first sequence has
strictly decreasing (hence distinct) timestamps in ascending history
order `t1 < t2 < ... < tn`, and a valid pair `a < b`, the range count
returns exactly the number of posts with timestamp in the closed
interval from `a` to `b` — in particular 0 when no post lies in the
range and `n` when every post does — and the worker delivers the result
as a single terminal range event. -/
theorem range_count_exact (a b : Nat) (pages : List (List Tweet))
    (_hab : a < b)
    (hsorted : pages.flatten.Pairwise
      (fun t u => u.created_at < t.created_at)) :
    count_tweets_in_range a b pages
      = pages.flatten.countP
          (fun t => decide (a ≤ t.created_at ∧ t.created_at ≤ b))
    ∧ ((∀ t ∈ pages.flatten, ¬ (a ≤ t.created_at ∧ t.created_at ≤ b)) →
        count_tweets_in_range a b pages = 0)
    ∧ ((∀ t ∈ pages.flatten, a ≤ t.created_at ∧ t.created_at ≤ b) →
        count_tweets_in_range a b pages = pages.flatten.length)
    ∧ rangeWorker (.ok (count_tweets_in_range a b pages))
        = [Event.range (count_tweets_in_range a b pages)] := by
  have hmain := count_tweets_in_range_correct a b pages hsorted
  refine ⟨hmain, ?_, ?_, rfl⟩
  · intro hnone
    rw [hmain, List.countP_eq_zero]
    intro t ht
    simpa using hnone t ht
  · intro hall
    rw [hmain, List.countP_eq_length]
    intro t ht
    simpa using hall t ht

theorem range_count_exact_witness :
    (15 : Nat) < 35
    ∧ ([[sampleTweet 1 30, sampleTweet 2 20],
        [sampleTweet 3 10]] : List (List Tweet)).flatten.Pairwise
        (fun t u => u.created_at < t.created_at)
    ∧ (count_tweets_in_range 15 35
        [[sampleTweet 1 30, sampleTweet 2 20], [sampleTweet 3 10]]
        = ([[sampleTweet 1 30, sampleTweet 2 20],
            [sampleTweet 3 10]] : List (List Tweet)).flatten.countP
            (fun t => decide (15 ≤ t.created_at ∧ t.created_at ≤ 35))
      ∧ ((∀ t ∈ ([[sampleTweet 1 30, sampleTweet 2 20],
            [sampleTweet 3 10]] : List (List Tweet)).flatten,
            ¬ (15 ≤ t.created_at ∧ t.created_at ≤ 35)) →
          count_tweets_in_range 15 35
            [[sampleTweet 1 30, sampleTweet 2 20], [sampleTweet 3 10]] = 0)
      ∧ ((∀ t ∈ ([[sampleTweet 1 30, sampleTweet 2 20],
            [sampleTweet 3 10]] : List (List Tweet)).flatten,
            15 ≤ t.created_at ∧ t.created_at ≤ 35) →
          count_tweets_in_range 15 35
            [[sampleTweet 1 30, sampleTweet 2 20], [sampleTweet 3 10]]
            = ([[sampleTweet 1 30, sampleTweet 2 20],
                [sampleTweet 3 10]] : List (List Tweet)).flatten.length)
      ∧ rangeWorker (.ok (count_tweets_in_range 15 35
            [[sampleTweet 1 30, sampleTweet 2 20], [sampleTweet 3 10]]))
          = [Event.range (count_tweets_in_range 15 35
              [[sampleTweet 1 30, sampleTweet 2 20], [sampleTweet 3 10]])]) :=
  ⟨by decide, by decide,
    range_count_exact 15 35
      [[sampleTweet 1 30, sampleTweet 2 20], [sampleTweet 3 10]]
      (by decide) (by decide)⟩

/-- C2: across any sequence of polls within one session, a given post
id appears in at most one emitted new subset; the new subset of a tick
preserves the fetch order (it is a sublist of the fetched sequence);
the dedup set never shrinks; every post classified as new had an id
absent from the set and has its id inserted; and at the step level a
post at the head of the iteration is classified new exactly when its id
is absent, the id being inserted in that case. -/
theorem dedup_new_posts_unique (polls : List (List Tweet)) (ids : List Nat)
    (tweets : List Tweet) :
    (pollNews polls ids).Pairwise
      (fun n1 n2 => ∀ t ∈ n1, ∀ u ∈ n2, t.id ≠ u.id)
    ∧ List.Sublist (observe tweets ids).1 tweets
    ∧ ids ⊆ (observe tweets ids).2
    ∧ (∀ t ∈ (observe tweets ids).1,
        t.id ∉ ids ∧ t.id ∈ (observe tweets ids).2)
    ∧ (∀ (t : Tweet) (ts : List Tweet), t.id ∈ ids →
        observe (t :: ts) ids = observe ts ids)
    ∧ (∀ (t : Tweet) (ts : List Tweet), t.id ∉ ids →
        observe (t :: ts) ids
          = (t :: (observe ts (t.id :: ids)).1,
              (observe ts (t.id :: ids)).2)) := by
  refine ⟨pollNews_pairwise polls ids, observe_new_sublist tweets ids,
    observe_ids_subset tweets ids,
    fun t ht => ⟨observe_new_not_mem tweets ids t ht,
      observe_new_mem_ids tweets ids t ht⟩, ?_, ?_⟩
  · intro t ts h
    simp [observe, h]
  · intro t ts h
    simp [observe, h]

/-- An engine state in which monitoring has successfully started. -/
def sampleEngine : EngineState :=
  { apiConstructed := true, userId := some "demo", running := true,
    monitoringStart := some 0, rangeCount := none, tweetIds := [],
    pollAlive := true, rangeAlive := false }

/-- C3: with the engine started (api constructed and a user id
resolved), a range request whose parsed start is not strictly before
its parsed end is rejected synchronously as an invalid range: engine
state is returned unchanged, no worker thread is spawned, and the
request contributes no event to the queue. -/
theorem range_rejects_inverted (s : EngineState) (uid : String) (a b : Nat)
    (w : List Event)
    (hapi : s.apiConstructed = true) (huid : s.userId = some uid)
    (hab : b ≤ a) :
    count_range s (some a) (some b) = (s, .invalidRange)
    ∧ (count_range s (some a) (some b)).2 ≠ .spawned
    ∧ requestEvents (count_range s (some a) (some b)).2 w = [] := by
  have h1 : count_range s (some a) (some b) = (s, .invalidRange) := by
    simp only [count_range]
    simp [hapi, huid, hab]
  refine ⟨h1, ?_, ?_⟩
  · rw [h1]
    simp
  · rw [h1]
    rfl

theorem range_rejects_inverted_witness :
    sampleEngine.apiConstructed = true
    ∧ sampleEngine.userId = some "demo"
    ∧ (9 : Nat) ≤ 18
    ∧ (count_range sampleEngine (some 18) (some 9)
          = (sampleEngine, .invalidRange)
      ∧ (count_range sampleEngine (some 18) (some 9)).2 ≠ .spawned
      ∧ requestEvents (count_range sampleEngine (some 18) (some 9)).2
          [Event.range 3] = []) :=
  ⟨by decide, by decide, by decide,
    range_rejects_inverted sampleEngine "demo" 18 9 [Event.range 3]
      (by decide) (by decide) (by decide)⟩

/-- C5: a tick whose recent-posts fetch fails enqueues exactly one
error event carrying the failure description, leaves the dedup set and
the session window untouched, and the loop goes on to process the
remaining schedule — the failure never terminates the poll-loop task. -/
theorem fetch_failure_tolerated (interval : Nat) (st : LoopState)
    (inp : TickInput) (e : String) (rest : List (TickInput × Bool))
    (hf : inp.fetch = Except.error e) :
    pollTick interval st inp
      = ({ st with cycle := st.cycle + 1 }, [Event.error e])
    ∧ (pollTick interval st inp).1.ids = st.ids
    ∧ (pollTick interval st inp).1.monitoringStart = st.monitoringStart
    ∧ pollLoopRun interval st ((inp, false) :: rest)
        = ((pollLoopRun interval { st with cycle := st.cycle + 1 } rest).1,
            Event.error e
              :: (pollLoopRun interval
                    { st with cycle := st.cycle + 1 } rest).2) := by
  have h1 : pollTick interval st inp
      = ({ st with cycle := st.cycle + 1 }, [Event.error e]) := by
    rw [pollTick, hf]
  refine ⟨h1, by rw [h1], by rw [h1], ?_⟩
  rw [pollLoopRun]
  simp [h1]

/-- A tick environment with a failing fetch. -/
def failingTick : TickInput :=
  { fetch := .error "rate limited", infoResult := .ok ⟨5, 6, 7⟩, now := 100 }

/-- A loop state at the start of a session. -/
def sampleLoopState : LoopState :=
  { cycle := 0, ids := [], monitoringStart := some 0 }

theorem fetch_failure_tolerated_witness :
    failingTick.fetch = Except.error "rate limited"
    ∧ (pollTick 60 sampleLoopState failingTick
          = ({ sampleLoopState with cycle := sampleLoopState.cycle + 1 },
              [Event.error "rate limited"])
      ∧ (pollTick 60 sampleLoopState failingTick).1.ids = sampleLoopState.ids
      ∧ (pollTick 60 sampleLoopState failingTick).1.monitoringStart
          = sampleLoopState.monitoringStart
      ∧ pollLoopRun 60 sampleLoopState [(failingTick, false)]
          = ((pollLoopRun 60
                { sampleLoopState with cycle := sampleLoopState.cycle + 1 }
                []).1,
              Event.error "rate limited"
                :: (pollLoopRun 60
                      { sampleLoopState with
                          cycle := sampleLoopState.cycle + 1 } []).2)) :=
  ⟨rfl, fetch_failure_tolerated 60 sampleLoopState failingTick
    "rate limited" [] rfl⟩

/-- C6: calling start while the poll loop is already running is a
silent no-op that spawns no second task and changes no engine state,
and calling stop while idle is a no-op. -/
theorem start_stop_idempotent (s s2 : EngineState) (u : String)
    (ip : Option Int) (r : ResolveOutcome) (now : Nat)
    (hrun : s.running = true) (hidle : s2.running = false) :
    start s u ip r now = (s, .noop) ∧ stop s2 = (s2, false) := by
  constructor
  · rw [start.eq_def]
    simp [hrun]
  · rw [stop]
    simp [hidle]

/-- An engine state before any successful start. -/
def idleEngine : EngineState :=
  { apiConstructed := false, userId := none, running := false,
    monitoringStart := none, rangeCount := none, tweetIds := [],
    pollAlive := false, rangeAlive := false }

theorem start_stop_idempotent_witness :
    sampleEngine.running = true
    ∧ idleEngine.running = false
    ∧ (start sampleEngine "demo" (some 60) (.resolved "id1") 5
          = (sampleEngine, .noop)
      ∧ stop idleEngine = (idleEngine, false)) :=
  ⟨by decide, by decide,
    start_stop_idempotent sampleEngine idleEngine "demo" (some 60)
      (.resolved "id1") 5 (by decide) (by decide)⟩

/-- C7: a tick whose fetch succeeds (and whose account-info refresh,
when due, succeeds) emits exactly one update event; the event carries
the tick timestamp, the full fetched snapshot, the dedup-classified new
subset, the number of fetched posts from the current calendar day, the
number of fetched posts since the fixed session-start timestamp, and
the refreshed account info exactly when the refresh policy makes it
due. -/
theorem tick_update_event (interval : Nat) (st : LoopState)
    (inp : TickInput) (tweets : List Tweet) (ai : AccountInfo) (m : Nat)
    (hf : inp.fetch = Except.ok tweets)
    (hi : inp.infoResult = Except.ok ai)
    (hm : st.monitoringStart = some m) :
    pollTick interval st inp
      = ({ st with cycle := st.cycle + 1, ids := (observe tweets st.ids).2 },
          [Event.update
            { now := inp.now
              tweets := tweets
              new := (observe tweets st.ids).1
              today := tweets.countP
                (fun t => decide (startOfDay inp.now ≤ t.created_at))
              period := tweets.countP (fun t => decide (m ≤ t.created_at))
              info := if infoDue (st.cycle + 1) interval then some ai
                      else none }])
    ∧ (pollTick interval st inp).2.length = 1 := by
  have h1 : pollTick interval st inp
      = ({ st with cycle := st.cycle + 1, ids := (observe tweets st.ids).2 },
          [Event.update
            { now := inp.now
              tweets := tweets
              new := (observe tweets st.ids).1
              today := tweets.countP
                (fun t => decide (startOfDay inp.now ≤ t.created_at))
              period := tweets.countP (fun t => decide (m ≤ t.created_at))
              info := if infoDue (st.cycle + 1) interval then some ai
                      else none }]) := by
    rw [pollTick, hf]
    by_cases hd : infoDue (st.cycle + 1) interval
    · simp [hd, hi, hm, Except.map]
    · simp [hd, hm]
  exact ⟨h1, by rw [h1]; rfl⟩

/-- A tick environment with a successful fetch of two posts. -/
def okTick : TickInput :=
  { fetch := .ok [sampleTweet 1 100, sampleTweet 2 90000],
    infoResult := .ok ⟨5, 6, 7⟩, now := 90060 }

theorem tick_update_event_witness :
    okTick.fetch = Except.ok [sampleTweet 1 100, sampleTweet 2 90000]
    ∧ okTick.infoResult = Except.ok ⟨5, 6, 7⟩
    ∧ sampleLoopState.monitoringStart = some 0
    ∧ (pollTick 60 sampleLoopState okTick
          = ({ sampleLoopState with
                cycle := sampleLoopState.cycle + 1
                ids := (observe [sampleTweet 1 100, sampleTweet 2 90000]
                          sampleLoopState.ids).2 },
              [Event.update
                { now := okTick.now
                  tweets := [sampleTweet 1 100, sampleTweet 2 90000]
                  new := (observe [sampleTweet 1 100, sampleTweet 2 90000]
                            sampleLoopState.ids).1
                  today := List.countP
                    (fun t => decide (startOfDay okTick.now ≤ t.created_at))
                    [sampleTweet 1 100, sampleTweet 2 90000]
                  period := List.countP
                    (fun t => decide (0 ≤ t.created_at))
                    [sampleTweet 1 100, sampleTweet 2 90000]
                  info := if infoDue (sampleLoopState.cycle + 1) 60
                          then some ⟨5, 6, 7⟩ else none }])
      ∧ (pollTick 60 sampleLoopState okTick).2.length = 1) :=
  ⟨rfl, rfl, rfl,
    tick_update_event 60 sampleLoopState okTick
      [sampleTweet 1 100, sampleTweet 2 90000] ⟨5, 6, 7⟩ 0 rfl rfl rfl⟩

/-- C8: when handle resolution fails during start, the transition to
Running is aborted: an error dialog is reported, the poll loop never
starts (no poll task is spawned), and the engine is left not running
with its dedup set and session window untouched. -/
theorem start_resolution_failure_aborts (s : EngineState) (u : String)
    (i : Int) (r : ResolveOutcome) (now : Nat)
    (hrun : s.running = false) (hu : u ≠ "")
    (hr : r.isFailure = true) :
    (∃ msg, (start s u (some i) r now).2 = .errorShown msg)
    ∧ (start s u (some i) r now).1.running = false
    ∧ (start s u (some i) r now).1.pollAlive = s.pollAlive
    ∧ (start s u (some i) r now).1.monitoringStart = s.monitoringStart
    ∧ (start s u (some i) r now).1.tweetIds = s.tweetIds := by
  cases r with
  | resolved uid => simp [ResolveOutcome.isFailure] at hr
  | constructRaises msg =>
    have h1 : start s u (some i) (.constructRaises msg) now
        = (s, .errorShown msg) := by
      rw [start.eq_def]
      simp [hrun, hu]
    rw [h1]
    exact ⟨⟨msg, rfl⟩, hrun, rfl, rfl, rfl⟩
  | infoRaises msg =>
    have h1 : start s u (some i) (.infoRaises msg) now
        = ({ s with apiConstructed := true }, .errorShown msg) := by
      rw [start.eq_def]
      simp [hrun, hu]
    rw [h1]
    exact ⟨⟨msg, rfl⟩, hrun, rfl, rfl, rfl⟩
  | noId =>
    have h1 : start s u (some i) .noId now
        = ({ s with apiConstructed := true, userId := none },
            .errorShown "Could not fetch user info.") := by
      rw [start.eq_def]
      simp [hrun, hu]
    rw [h1]
    exact ⟨⟨"Could not fetch user info.", rfl⟩, hrun, rfl, rfl, rfl⟩

theorem start_resolution_failure_aborts_witness :
    idleEngine.running = false
    ∧ ("demo" : String) ≠ ""
    ∧ (ResolveOutcome.noId).isFailure = true
    ∧ ((∃ msg, (start idleEngine "demo" (some 60) .noId 5).2
          = .errorShown msg)
      ∧ (start idleEngine "demo" (some 60) .noId 5).1.running = false
      ∧ (start idleEngine "demo" (some 60) .noId 5).1.pollAlive
          = idleEngine.pollAlive
      ∧ (start idleEngine "demo" (some 60) .noId 5).1.monitoringStart
          = idleEngine.monitoringStart
      ∧ (start idleEngine "demo" (some 60) .noId 5).1.tweetIds
          = idleEngine.tweetIds) :=
  ⟨by decide, by decide, by decide,
    start_resolution_failure_aborts idleEngine "demo" 60 .noId 5
      (by decide) (by decide) (by decide)⟩

/-- C9: while a range worker is still alive, any further range request
spawns no second worker and leaves the engine unchanged — two range
counters never run concurrently. -/
theorem range_refuse_if_busy (s : EngineState) (p q : Option Nat)
    (halive : s.rangeAlive = true) :
    (count_range s p q).1 = s ∧ (count_range s p q).2 ≠ .spawned := by
  simp only [count_range]
  by_cases h0 : s.apiConstructed = false ∨ s.userId = none
  · simp [h0]
  · by_cases h1 : p = none ∨ q = none
    · simp [h0, h1]
    · by_cases h2 : q.getD 0 ≤ p.getD 0
      · simp [h0, h1, h2]
      · simp [h0, h1, h2, halive]

/-- The started engine state with a range worker alive. -/
def busyEngine : EngineState :=
  { sampleEngine with rangeAlive := true }

theorem range_refuse_if_busy_witness :
    busyEngine.rangeAlive = true
    ∧ ((count_range busyEngine (some 9) (some 18)).1 = busyEngine
      ∧ (count_range busyEngine (some 9) (some 18)).2 ≠ .spawned) :=
  ⟨by decide, range_refuse_if_busy busyEngine (some 9) (some 18) (by decide)⟩

/-- C10: a range request issued before any successful start (no api
object constructed or no user id resolved) is refused synchronously:
engine state is returned unchanged, no worker is spawned, and the
request contributes no event of any kind to the queue. -/
theorem range_before_start_refused (s : EngineState) (p q : Option Nat)
    (w : List Event)
    (h : s.apiConstructed = false ∨ s.userId = none) :
    count_range s p q = (s, .notReady)
    ∧ requestEvents (count_range s p q).2 w = [] := by
  have h1 : count_range s p q = (s, .notReady) := by
    rw [count_range, if_pos h]
  exact ⟨h1, by rw [h1]; rfl⟩

theorem range_before_start_refused_witness :
    (idleEngine.apiConstructed = false ∨ idleEngine.userId = none)
    ∧ (count_range idleEngine (some 9) (some 18) = (idleEngine, .notReady)
      ∧ requestEvents (count_range idleEngine (some 9) (some 18)).2
          [Event.range 3] = []) :=
  ⟨Or.inl (by decide),
    range_before_start_refused idleEngine (some 9) (some 18)
      [Event.range 3] (Or.inl (by decide))⟩

/-- C4 counterexample: stop is requested while the first tick is in
flight (the flag on the only schedule entry); the in-flight tick still
enqueues its update event and the consumer drain applies it, so the
result of the in-flight tick is delivered, not discarded. -/
theorem stop_discard_counterexample :
    (pollLoopRun 60 sampleLoopState
        [({ fetch := .ok [sampleTweet 1 100], infoResult := .ok ⟨5, 6, 7⟩,
            now := 100 }, true)]).2
      = [Event.update
          { now := 100, tweets := [sampleTweet 1 100],
            new := [sampleTweet 1 100], today := 1, period := 1,
            info := some ⟨5, 6, 7⟩ }]
    ∧ (drainQueue
        { today := none, period := none, lastUpdate := none,
          rangeCount := none, log := [] }
        (pollLoopRun 60 sampleLoopState
            [({ fetch := .ok [sampleTweet 1 100],
                infoResult := .ok ⟨5, 6, 7⟩, now := 100 }, true)]).2).lastUpdate
      = some 100 := by
  decide

/-- C4 amended: when stop is requested while the poll loop is Running,
the Running to Stopped transition takes effect at the next tick
boundary, never mid-call: the in-flight tick completes and no further
tick runs, but the update event of a successful in-flight tick is still
enqueued and delivered to the consumer rather than discarded. -/
theorem stop_next_boundary_delivers (interval : Nat) (st : LoopState)
    (inp : TickInput) (rest : List (TickInput × Bool)) (ui : UIState)
    (tweets : List Tweet) (ai : AccountInfo)
    (hf : inp.fetch = Except.ok tweets)
    (hi : inp.infoResult = Except.ok ai) :
    pollLoopRun interval st ((inp, true) :: rest) = pollTick interval st inp
    ∧ (drainQueue ui
        (pollLoopRun interval st ((inp, true) :: rest)).2).lastUpdate
      = some inp.now := by
  have hloop : pollLoopRun interval st ((inp, true) :: rest)
      = pollTick interval st inp := by
    rw [pollLoopRun]
    simp
  refine ⟨hloop, ?_⟩
  rw [hloop, pollTick, hf]
  by_cases hd : infoDue (st.cycle + 1) interval
  · simp [hd, hi, Except.map, drainQueue, applyEvent]
  · simp [hd, drainQueue, applyEvent]

theorem stop_next_boundary_delivers_witness :
    okTick.fetch = Except.ok [sampleTweet 1 100, sampleTweet 2 90000]
    ∧ okTick.infoResult = Except.ok ⟨5, 6, 7⟩
    ∧ (pollLoopRun 60 sampleLoopState [(okTick, true)]
          = pollTick 60 sampleLoopState okTick
      ∧ (drainQueue
          { today := none, period := none, lastUpdate := none,
            rangeCount := none, log := [] }
          (pollLoopRun 60 sampleLoopState [(okTick, true)]).2).lastUpdate
        = some okTick.now) :=
  ⟨rfl, rfl,
    stop_next_boundary_delivers 60 sampleLoopState okTick []
      { today := none, period := none, lastUpdate := none,
        rangeCount := none, log := [] }
      [sampleTweet 1 100, sampleTweet 2 90000] ⟨5, 6, 7⟩ rfl rfl⟩

end TweetMonitor
